import Mathlib

/-!
Verification of the tick-level backtesting and order-simulation core of the
`botd` trading bot, against its natural-language specification.

The development shallowly embeds the Python sources:
  - `src/execution/broker.py` (class `BrokerSimulado` and dataclasses
    `Orden`, `ResultadoOrden`),
  - `src/data/tick_simulator.py` (class `TickSimulator`),
  - `src/backtest/backtest_engine.py` (SL/TP checking and
    `_calcular_metricas` of class `BacktestEngine`).

Conventions of the embedding:
  - Python floats are modelled as exact rationals; every constant that
    appears in the claims (prices, commissions, spreads) is an exact
    decimal fraction.
  - Wall-clock timestamps (`datetime.now()`) have no observable role in any
    claim and are omitted from the records.
  - Randomness (the Gaussian tick noise and the random tick volume in
    `tick_simulator.py`) is modelled by explicit oracle parameters.
  - Python exceptions on a code path are modelled with `Except`.
-/

attribute [local semireducible] Rat.add Rat.sub Rat.mul Rat.inv Rat.ofScientific

namespace Botd

/-- Side of a trade: the source uses the strings "COMPRA" and "VENTA";
`colocar_orden` of `BrokerSimulado` treats every string other than
"COMPRA" as a sell, so two constructors are a faithful model. -/
inductive TipoOperacion where
  | compra
  | venta
deriving DecidableEq, Repr

/-- Execution kind of an order (`tipo_orden` in `broker.py`): "market",
"limit" or "stop". -/
inductive ClaseOrden where
  | market
  | limite
  | stop
deriving DecidableEq, Repr

/-- Lifecycle state of a position or pending order, the strings "abierta",
"pendiente" and "cerrada" in the source dictionaries. -/
inductive EstadoPosicion where
  | abierta
  | pendiente
  | cerrada
deriving DecidableEq, Repr

/-- Dataclass `Orden` of `broker.py` (lines 30-48) without the
`__post_init__` validation, which is modelled by `mkOrden` below.
`expiracion` (a `datetime`, never read by the simulated broker) is
omitted. -/
structure Orden where
  simbolo : String
  tipo : TipoOperacion
  volumen : ℚ
  precio : Option ℚ := none
  stopLoss : Option ℚ := none
  takeProfit : Option ℚ := none
  comentario : String := ""
  magic : ℕ := 234000
  desviacion : ℕ := 10
  tipoOrden : ClaseOrden := .market
deriving DecidableEq, Repr

/-- Validating constructor of `Orden`: `__post_init__` (broker.py lines
45-48) raises `ValueError` when the volume is below the minimum lot 0.01,
so an `Orden` value with such a volume never comes into existence. -/
def mkOrden (o : Orden) : Except String Orden :=
  if o.volumen < 1/100 then
    .error "ValueError: volumen menor que minimo 0.01"
  else
    .ok o

/-- Dataclass `ResultadoOrden` of `broker.py` (lines 14-28), the result of
every broker operation. The `timestamp` field (wall clock) is omitted. -/
structure ResultadoOrden where
  exito : Bool
  ticket : Option ℕ := none
  precio : Option ℚ := none
  volumen : Option ℚ := none
  mensaje : String := ""
deriving DecidableEq, Repr

/-- An open position of `BrokerSimulado`: the dictionary built in
`colocar_orden` (broker.py lines 493-509). The `timestamp_apertura` field
(wall clock) is omitted. -/
structure Posicion where
  ticket : ℕ
  simbolo : String
  tipo : TipoOperacion
  volumen : ℚ
  precioApertura : ℚ
  precioActual : ℚ
  stopLoss : Option ℚ
  takeProfit : Option ℚ
  comision : ℚ
  swap : ℚ
  beneficio : ℚ
  comentario : String
  magic : ℕ
  estado : EstadoPosicion
deriving DecidableEq, Repr

/-- A closed trade of the ledger `historial`: `cerrar_orden` copies the
position dictionary and adds the close data (broker.py lines 627-633);
`timestamp_cierre` (wall clock) is omitted. In the copy, `beneficio` holds
the net realized profit and `estado` is `cerrada`. -/
structure Operacion extends Posicion where
  precioCierre : ℚ
deriving DecidableEq, Repr

/-- A pending (limit or stop) order of `BrokerSimulado`: the dictionary
built in `colocar_orden` (broker.py lines 529-542). -/
structure OrdenPendiente where
  ticket : ℕ
  simbolo : String
  tipo : TipoOperacion
  volumen : ℚ
  precio : Option ℚ
  stopLoss : Option ℚ
  takeProfit : Option ℚ
  tipoOrden : ClaseOrden
  comentario : String
  magic : ℕ
  estado : EstadoPosicion
deriving DecidableEq, Repr

/-- The mutable state of class `BrokerSimulado` (broker.py lines 460-473):
open positions, pending orders, the append-only trade ledger, the account
balance and equity, and the configured commission per lot and absolute
spread. -/
structure BrokerSimulado where
  posiciones : List Posicion
  ordenesPendientes : List OrdenPendiente
  historial : List Operacion
  balance : ℚ
  equity : ℚ
  comisionPorLote : ℚ
  spread : ℚ
deriving DecidableEq, Repr

/-- Constructor `BrokerSimulado.__init__` (broker.py lines 463-473):
balance and equity start at the configured initial capital, and the
configured average spread is given in pips and divided by 10000. -/
def brokerInicial (capitalInicial comisionPorLote spreadPromedio : ℚ) :
    BrokerSimulado where
  posiciones := []
  ordenesPendientes := []
  historial := []
  balance := capitalInicial
  equity := capitalInicial
  comisionPorLote := comisionPorLote
  spread := spreadPromedio / 10000

/-- Python `x or d` applied to an optional float, as in
`orden.precio or 1.10000`: both `None` and `0.0` are falsy and fall back
to the default. -/
def oPorDefecto (x : Option ℚ) (d : ℚ) : ℚ :=
  match x with
  | none => d
  | some p => if p = 0 then d else p

/-- Method `BrokerSimulado.colocar_orden` (broker.py lines 475-560).
The ticket is `len(self.historial) + 1000`; a market order fills at the
requested price (default 1.10000 when the price is unset or zero) plus
half the spread for a buy and minus half the spread for a sell, appends
the new position, and subtracts the commission
`volumen * comision_por_lote` from the balance, setting the equity to the
new balance; a limit or stop order is queued as pending. -/
def colocarOrden (b : BrokerSimulado) (orden : Orden) :
    ResultadoOrden × BrokerSimulado :=
  let ticket := b.historial.length + 1000
  let comision := orden.volumen * b.comisionPorLote
  match orden.tipoOrden with
  | .market =>
    let precioEjecucion :=
      match orden.tipo with
      | .compra => oPorDefecto orden.precio 1.10000 + b.spread / 2
      | .venta => oPorDefecto orden.precio 1.10000 - b.spread / 2
    let posicion : Posicion :=
      { ticket := ticket
        simbolo := orden.simbolo
        tipo := orden.tipo
        volumen := orden.volumen
        precioApertura := precioEjecucion
        precioActual := precioEjecucion
        stopLoss := orden.stopLoss
        takeProfit := orden.takeProfit
        comision := comision
        swap := 0
        beneficio := 0
        comentario := orden.comentario
        magic := orden.magic
        estado := .abierta }
    ({ exito := true
       ticket := some ticket
       precio := some precioEjecucion
       volumen := some orden.volumen
       mensaje := "Orden ejecutada en simulador" },
     { b with
        posiciones := b.posiciones ++ [posicion]
        balance := b.balance - comision
        equity := b.balance - comision })
  | _ =>
    let pendiente : OrdenPendiente :=
      { ticket := ticket
        simbolo := orden.simbolo
        tipo := orden.tipo
        volumen := orden.volumen
        precio := orden.precio
        stopLoss := orden.stopLoss
        takeProfit := orden.takeProfit
        tipoOrden := orden.tipoOrden
        comentario := orden.comentario
        magic := orden.magic
        estado := .pendiente }
    ({ exito := true
       ticket := some ticket
       precio := orden.precio
       volumen := some orden.volumen
       mensaje := "Orden pendiente en simulador" },
     { b with ordenesPendientes := b.ordenesPendientes ++ [pendiente] })

/-- Attempted placement of a not yet constructed order: dataclass
construction (`__post_init__`) followed by `colocar_orden`. When the
construction raises the `ValueError`, `colocar_orden` is never reached and
the broker state is untouched; the source test
`tests_backup/test_broker.py::test_volumen_minimo` exercises exactly this
path. -/
def intentarColocarOrden (b : BrokerSimulado) (o : Orden) :
    BrokerSimulado × Option ResultadoOrden :=
  match mkOrden o with
  | .error _ => (b, none)
  | .ok orden =>
    let (resultado, b') := colocarOrden b orden
    (b', some resultado)

/-- The search-and-close loop of `BrokerSimulado.cerrar_orden` (broker.py
lines 610-636): the first position of the list carrying the ticket is
closed; for a buy, the close price is the current price minus half the
spread and the gross profit `(precio_cierre - precio_apertura) * volumen *
100000`; for a sell, the mirror; the net profit subtracts the recorded
commission. Returns the closed position, its close price, its net profit,
and the remaining positions in order. -/
def cerrarLista (spread : ℚ) (ticket : ℕ) :
    List Posicion → Option (Posicion × ℚ × ℚ × List Posicion)
  | [] => none
  | p :: resto =>
    if p.ticket = ticket then
      let precioCierre :=
        match p.tipo with
        | .compra => p.precioActual - spread / 2
        | .venta => p.precioActual + spread / 2
      let beneficio :=
        match p.tipo with
        | .compra => (precioCierre - p.precioApertura) * p.volumen * 100000
        | .venta => (p.precioApertura - precioCierre) * p.volumen * 100000
      some (p, precioCierre, beneficio - p.comision, resto)
    else
      (cerrarLista spread ticket resto).map
        fun (q, pc, bn, rem) => (q, pc, bn, p :: rem)

/-- Method `BrokerSimulado.cerrar_orden` (broker.py lines 607-659). The
`volumen` argument of the source signature is accepted and never read: the
whole position is always closed. On success the net profit is added to the
balance, the equity is set to the new balance, the closed trade is appended
to the ledger and the position is removed from the open list; an unknown
ticket yields a failed result and leaves the state untouched. -/
def cerrarOrden (b : BrokerSimulado) (ticket : ℕ) (volumen : Option ℚ) :
    ResultadoOrden × BrokerSimulado :=
  match cerrarLista b.spread ticket b.posiciones with
  | none =>
    ({ exito := false, mensaje := "Posicion no encontrada" }, b)
  | some (p, precioCierre, beneficioNeto, restantes) =>
    let operacion : Operacion :=
      { { p with beneficio := beneficioNeto, estado := .cerrada } with
        precioCierre := precioCierre }
    ({ exito := true
       ticket := some ticket
       precio := some precioCierre
       volumen := some p.volumen
       mensaje := "Posicion cerrada" },
     { b with
        balance := b.balance + beneficioNeto
        equity := b.balance + beneficioNeto
        historial := b.historial ++ [operacion]
        posiciones := restantes })

/-- The net unrealized profit of an open position as mark-to-market
computes it (the loop body of `obtener_posiciones_abiertas`, broker.py
lines 670-675): the price difference between current and open price, with
the sign of the side, times volume times the contract size 100000, minus
the commission recorded on the position. -/
def beneficioNoRealizado (p : Posicion) : ℚ :=
  (match p.tipo with
   | .compra => (p.precioActual - p.precioApertura) * p.volumen * 100000
   | .venta => (p.precioApertura - p.precioActual) * p.volumen * 100000)
  - p.comision

/-- Method `BrokerSimulado.obtener_posiciones_abiertas` (broker.py lines
661-681). broker.py never imports numpy, yet the first statement of the
update loop is `cambio = np.random.uniform(-0.0001, 0.0001)`: with at
least one open position the method raises `NameError` before touching any
state, which `Except.error` models. With no open position the loop body
never runs, the total unrealized profit is the empty sum, the equity is
recomputed as `balance + 0`, and the (empty) list of positions is
returned. -/
def obtenerPosicionesAbiertas (b : BrokerSimulado) :
    Except String (List Posicion × BrokerSimulado) :=
  match b.posiciones with
  | [] => .ok ([], { b with equity := b.balance + 0 })
  | _ :: _ => .error "NameError: name np is not defined"

/-- The account snapshot returned by
`BrokerSimulado.obtener_estado_cuenta` (broker.py lines 687-703); the
fixed simulator fields (margin zero, server name, leverage) are omitted,
`beneficio` is the sum of the stored `beneficio` fields of the open
positions. The method reads state and mutates nothing. -/
structure EstadoCuenta where
  balance : ℚ
  equity : ℚ
  beneficio : ℚ
deriving DecidableEq, Repr

/-- Method `BrokerSimulado.obtener_estado_cuenta` (broker.py lines
687-703). -/
def obtenerEstadoCuenta (b : BrokerSimulado) : EstadoCuenta where
  balance := b.balance
  equity := b.equity
  beneficio := (b.posiciones.map Posicion.beneficio).sum

/-- One call against the simulated venue, restricted to the four
operations the account invariant claim quantifies over: place an order,
close a ticket, list the open positions (mark to market), and read the
account state. -/
inductive OpVenue where
  | colocar (orden : Orden)
  | cerrar (ticket : ℕ) (volumen : Option ℚ)
  | obtenerPosiciones
  | obtenerEstado
deriving DecidableEq, Repr

/-- The broker state after one venue operation: each constructor runs the
corresponding method of `BrokerSimulado` and keeps its state effect; a
raised exception (the `NameError` of `obtener_posiciones_abiertas`)
propagates before any mutation, leaving the state as it was. -/
def pasoVenue (b : BrokerSimulado) : OpVenue → BrokerSimulado
  | .colocar orden => (colocarOrden b orden).2
  | .cerrar ticket volumen => (cerrarOrden b ticket volumen).2
  | .obtenerPosiciones =>
    match obtenerPosicionesAbiertas b with
    | .ok (_, b') => b'
    | .error _ => b
  | .obtenerEstado => b

/-- The broker state after a sequence of venue operations starting from a
given state. -/
def ejecutarOps (b : BrokerSimulado) (ops : List OpVenue) : BrokerSimulado :=
  ops.foldl pasoVenue b

/-- Arithmetic mean of a list, as `pandas`/`numpy` compute it on a
non-empty series; on the empty list the rational division by zero gives 0
(the source only takes means of series it has checked to be non-empty). -/
def mediaQ (xs : List ℚ) : ℚ := xs.sum / xs.length

/-- Truncation toward zero, the semantics of `.astype(int)` applied by
`numpy` to a float. -/
def truncQ (q : ℚ) : ℤ := if 0 ≤ q then ⌊q⌋ else ⌈q⌉

/-- One row of the candle DataFrame handed to `TickSimulator`, with the
required columns checked by `_preparar_datos` (tick_simulator.py lines
33-38); the timestamp is modelled as rational seconds. -/
structure Vela where
  timestamp : ℚ
  apertura : ℚ
  alto : ℚ
  bajo : ℚ
  cierre : ℚ
deriving DecidableEq, Repr

/-- A candle row after `TickSimulator._preparar_datos` added the derived
columns `rango`, `volatilidad` and `ticks_por_vela` (tick_simulator.py
lines 40-48). -/
structure VelaPrep extends Vela where
  rango : ℚ
  volatilidad : ℚ
  ticksPorVela : ℕ
deriving DecidableEq, Repr

/-- The rolling volatility of candle `i`:
`rango.rolling(20).mean().fillna(rango.mean())` (tick_simulator.py line
42): the mean of the 20 ranges ending at `i` once 20 rows exist, and the
whole-series mean before that. -/
def volatilidadEn (rangos : List ℚ) (i : ℕ) : ℚ :=
  if 19 ≤ i then ((rangos.drop (i - 19)).take 20).sum / 20
  else mediaQ rangos

/-- Ticks per candle:
`np.clip((volatilidad * 10000).astype(int), 5, 100)` (tick_simulator.py
lines 45-48): truncate the scaled volatility to an integer and clamp it
into [5, 100]. -/
def ticksDeVolatilidad (volatilidad : ℚ) : ℕ :=
  (min 100 (max 5 (truncQ (volatilidad * 10000)))).toNat

/-- Method `TickSimulator._preparar_datos` (tick_simulator.py lines
31-48): every candle row gains its range, its rolling volatility and its
clamped tick count. -/
def prepararDatos (velas : List Vela) : List VelaPrep :=
  let rangos := velas.map fun v => v.alto - v.bajo
  velas.enum.map fun par =>
    let volatilidad := volatilidadEn rangos par.1
    { toVela := par.2
      rango := par.2.alto - par.2.bajo
      volatilidad := volatilidad
      ticksPorVela := ticksDeVolatilidad volatilidad }

/-- A synthetic tick, the dictionary built by
`TickSimulator.generar_ticks_para_vela` (tick_simulator.py lines 89-96).
The dictionary has no `simbolo` key. -/
structure Tick where
  timestamp : ℚ
  bid : ℚ
  ask : ℚ
  last : ℚ
  volumen : ℕ
  spread : ℚ
deriving DecidableEq, Repr

/-- The mutable state of class `TickSimulator` (tick_simulator.py lines
10-29 and 102-127). The Gaussian price noise and the random tick volume
are unseeded draws in the source; the embedding carries them as oracles
indexed by candle index and tick index. -/
structure TickSimulator where
  datosVelas : List VelaPrep
  spread : ℚ
  ticksGenerados : List Tick
  indiceActual : ℕ
  ticksActuales : List Tick
  tickIdx : ℕ
  ruido : ℕ → ℕ → ℚ
  volumenAleatorio : ℕ → ℕ → ℕ

/-- Constructor `TickSimulator.__init__` (tick_simulator.py lines 15-29):
copies and prepares the candle data and starts at the first candle with no
tick generated yet (the `ticks_actuales` attribute does not exist until
first use, which equals starting from the empty list). -/
def mkTickSimulator (velas : List Vela) (spread : ℚ)
    (ruido : ℕ → ℕ → ℚ) (volumenAleatorio : ℕ → ℕ → ℕ) : TickSimulator where
  datosVelas := prepararDatos velas
  spread := spread
  ticksGenerados := []
  indiceActual := 0
  ticksActuales := []
  tickIdx := 0
  ruido := ruido
  volumenAleatorio := volumenAleatorio

/-- Clamping of a price into the candle range:
`np.clip(x, vela.bajo, vela.alto)`, which is
`minimum(alto, maximum(x, bajo))`. -/
def clipQ (x bajo alto : ℚ) : ℚ := min alto (max x bajo)

/-- Interpolation `np.linspace(apertura, cierre, n)` at index `i`: a
single point sits at the start, otherwise the points step evenly and reach
`cierre` exactly. -/
def linspaceQ (a b : ℚ) (n i : ℕ) : ℚ :=
  if n ≤ 1 then a else a + (i : ℚ) * ((b - a) / ((n : ℚ) - 1))

/-- Method `TickSimulator.generar_ticks_para_vela` (tick_simulator.py
lines 50-100): an index past the candle set yields no ticks; otherwise the
candle yields `ticks_por_vela` ticks whose bid interpolates open to close
plus noise, clamped into [bajo, alto], with `ask = bid + spread`,
`last = (bid + ask) / 2`, and timestamps subdividing one minute evenly. -/
def generarTicksParaVela (sim : TickSimulator) (velaIdx : ℕ) : List Tick :=
  match sim.datosVelas[velaIdx]? with
  | none => []
  | some vela =>
    let n := vela.ticksPorVela
    (List.range n).map fun i =>
      let bid := clipQ (linspaceQ vela.apertura vela.cierre n i + sim.ruido velaIdx i)
        vela.bajo vela.alto
      let ask := bid + sim.spread
      { timestamp := vela.timestamp + ((i : ℚ) * 60) / (n : ℚ)
        bid := bid
        ask := ask
        last := (bid + ask) / 2
        volumen := sim.volumenAleatorio velaIdx i
        spread := sim.spread }

/-- Method `TickSimulator.obtener_siguiente_tick` (tick_simulator.py lines
102-127): past the last candle the sentinel None is returned; an empty
tick buffer is refilled from the current candle; a buffered tick is
returned and logged; an exhausted buffer advances to the next candle by
self-recursion. -/
def obtenerSiguienteTick (sim : TickSimulator) : Option Tick × TickSimulator :=
  if h1 : sim.datosVelas.length ≤ sim.indiceActual then (none, sim)
  else
    let regenerar := sim.ticksActuales.isEmpty
    let actuales := if regenerar then generarTicksParaVela sim sim.indiceActual
      else sim.ticksActuales
    let idx := if regenerar then 0 else sim.tickIdx
    if h2 : idx < actuales.length then
      let tick := actuales.get ⟨idx, h2⟩
      (some tick,
       { sim with
          ticksActuales := actuales
          tickIdx := idx + 1
          ticksGenerados := sim.ticksGenerados ++ [tick] })
    else
      obtenerSiguienteTick
        { sim with
            indiceActual := sim.indiceActual + 1
            ticksActuales := []
            tickIdx := idx }
termination_by sim.datosVelas.length - sim.indiceActual
decreasing_by simp; omega

/-- The simulator state after one `obtener_siguiente_tick` call. -/
def pasoSimulador (sim : TickSimulator) : TickSimulator :=
  (obtenerSiguienteTick sim).2

/-- The tick returned by the `(k+1)`-st call of `obtener_siguiente_tick`
on a simulator, counting from a given state. -/
def llamadaSimulador (sim : TickSimulator) (k : ℕ) : Option Tick :=
  (obtenerSiguienteTick (pasoSimulador^[k] sim)).1

/-- Method `BacktestEngine._verificar_sl_tp` (backtest_engine.py lines
178-202): with either protective level unset nothing happens; a buy closes
when the tick price reaches the stop loss, else when it reaches the take
profit; a sell mirrors both comparisons; each branch issues exactly one
`cerrar_orden` call. -/
def verificarSlTp (b : BrokerSimulado) (posicion : Posicion) (tickLast : ℚ) :
    BrokerSimulado :=
  match posicion.stopLoss, posicion.takeProfit with
  | some stopLoss, some takeProfit =>
    (match posicion.tipo with
     | .compra =>
       if tickLast ≤ stopLoss then (cerrarOrden b posicion.ticket none).2
       else if takeProfit ≤ tickLast then (cerrarOrden b posicion.ticket none).2
       else b
     | .venta =>
       if stopLoss ≤ tickLast then (cerrarOrden b posicion.ticket none).2
       else if tickLast ≤ takeProfit then (cerrarOrden b posicion.ticket none).2
       else b)
  | _, _ => b

/-- The symbol a tick carries: the dictionaries built by
`generar_ticks_para_vela` have no `simbolo` key, so the
`tick.get('simbolo')` of `_actualizar_precios_posiciones` is always
None. -/
def simboloDeTick (_ : Tick) : Option String := none

/-- Write-through of the current price onto the broker list: the Python
loop mutates the position dictionaries shared between the returned list
and `broker.posiciones`; the embedding locates them by ticket (the loop is
unreachable, since `obtener_posiciones_abiertas` raises on every non-empty
position list). -/
def actualizarPrecioPorTicket (b : BrokerSimulado) (ticket : ℕ) (precio : ℚ) :
    BrokerSimulado :=
  { b with
      posiciones := b.posiciones.map fun p =>
        if p.ticket = ticket then { p with precioActual := precio } else p }

/-- Method `BacktestEngine._actualizar_precios_posiciones`
(backtest_engine.py lines 166-176): asks the broker for the open
positions, and for each one matching the symbol of the tick writes the
tick price into it and runs the SL/TP check. The `NameError` that
`obtener_posiciones_abiertas` raises whenever a position is open
propagates to the caller and aborts the tick. -/
def actualizarPreciosPosiciones (b : BrokerSimulado) (tick : Tick) :
    Except String BrokerSimulado :=
  match obtenerPosicionesAbiertas b with
  | .error e => .error e
  | .ok (posiciones, b1) =>
    .ok (posiciones.foldl
      (fun bAcc posicion =>
        if simboloDeTick tick = some posicion.simbolo then
          let bAcc1 := actualizarPrecioPorTicket bAcc posicion.ticket tick.last
          verificarSlTp bAcc1 { posicion with precioActual := tick.last } tick.last
        else bAcc)
      b1)

/-- Sample variance with one delta degree of freedom, the quantity under
`pandas` `Series.std()`: on a single observation the source standard
deviation is NaN, every comparison with which is false, and here the
truncated denominator makes the variance 0, which the guards below treat
the same way. -/
def varianzaMuestral (xs : List ℚ) : ℚ :=
  (xs.map fun x => (x - mediaQ xs) ^ 2).sum / (xs.length - 1 : ℕ)

/-- Percentage change of consecutive points,
`Series.pct_change().dropna()`. -/
def pctChange (xs : List ℚ) : List ℚ :=
  (xs.zip xs.tail).map fun par => par.2 / par.1 - 1

/-- Running maxima of a list continuing from a known maximum. -/
def maximosDesde (m : ℚ) : List ℚ → List ℚ
  | [] => []
  | x :: resto => max m x :: maximosDesde (max m x) resto

/-- Running maxima `Series.expanding().max()`: entry `i` is the maximum of
the first `i + 1` entries. -/
def maximosAcumulados : List ℚ → List ℚ
  | [] => []
  | x :: resto => x :: maximosDesde x resto

/-- The relative drawdown series of the equity curve,
`(equity - rolling_max) / rolling_max * 100` (backtest_engine.py lines
279-281). -/
def seriesDrawdown (equity : List ℚ) : List ℚ :=
  (equity.zip (maximosAcumulados equity)).map
    fun par => (par.1 - par.2) / par.2 * 100

/-- Minimum of a non-empty list (`Series.min()`); 0 on the empty list,
which the caller guards against. -/
def minimoLista : List ℚ → ℚ
  | [] => 0
  | x :: resto => resto.foldl min x

/-- The performance metrics dictionary `resultados['metricas']` built by
`BacktestEngine._calcular_metricas`. The dictionary of the zero-trade
branch carries no return fields, hence the two optional entries. -/
structure Metricas where
  totalOperaciones : ℕ
  operacionesGanadoras : ℕ
  operacionesPerdedoras : ℕ
  winRate : ℚ
  beneficioTotal : ℚ
  drawdownMaximo : ℚ
  sharpe : ℝ
  expectancy : ℚ
  retornoTotal : Option ℚ
  retornoAnualizado : Option ℚ

/-- The defaults dictionary that `_calcular_metricas` stores when the
trade ledger is empty (backtest_engine.py lines 255-266). -/
def metricasVacias : Metricas where
  totalOperaciones := 0
  operacionesGanadoras := 0
  operacionesPerdedoras := 0
  winRate := 0
  beneficioTotal := 0
  drawdownMaximo := 0
  sharpe := 0
  expectancy := 0
  retornoTotal := none
  retornoAnualizado := none

/-- Method `BacktestEngine._calcular_metricas` (backtest_engine.py lines
250-317) as a function of the initial capital, the closed-trade ledger and
the equity curve. An empty ledger takes the early branch of defined
defaults. Otherwise: winners are trades of positive profit, losers of
negative profit; the maximal drawdown is the absolute minimum of the
drawdown series when that series is non-empty; the Sharpe ratio needs at
least two equity points and positive dispersion of the returns (the
source compares `returns.std() > 0`, equivalent to a positive sample
variance); the expectancy needs both a winner and a loser, and weighs the
average win against the absolute average loss. -/
noncomputable def calcularMetricas (capitalInicial : ℚ)
    (operaciones : List Operacion) (equityCurve : List ℚ) : Metricas :=
  if operaciones.isEmpty then metricasVacias
  else
    let totalOperaciones := operaciones.length
    let ganadoras := operaciones.filter fun op => 0 < op.beneficio
    let perdedoras := operaciones.filter fun op => op.beneficio < 0
    let winRate := (ganadoras.length : ℚ) / (totalOperaciones : ℚ) * 100
    let beneficioTotal := (operaciones.map fun op => op.beneficio).sum
    let dd := seriesDrawdown equityCurve
    let retornos := pctChange equityCurve
    { totalOperaciones := totalOperaciones
      operacionesGanadoras := ganadoras.length
      operacionesPerdedoras := perdedoras.length
      winRate := winRate
      beneficioTotal := beneficioTotal
      drawdownMaximo := if 0 < dd.length then |minimoLista dd| else 0
      sharpe :=
        if 1 < equityCurve.length then
          if 0 < varianzaMuestral retornos then
            ((mediaQ retornos : ℝ) / Real.sqrt (varianzaMuestral retornos))
              * Real.sqrt 252
          else 0
        else 0
      expectancy :=
        if ganadoras.isEmpty || perdedoras.isEmpty then 0
        else
          let avgGanancia := mediaQ (ganadoras.map fun op => op.beneficio)
          let avgPerdida := |mediaQ (perdedoras.map fun op => op.beneficio)|
          let probabilidadGanar := (ganadoras.length : ℚ) / (totalOperaciones : ℚ)
          probabilidadGanar * avgGanancia - (1 - probabilidadGanar) * avgPerdida
      retornoTotal := some (beneficioTotal / capitalInicial * 100)
      retornoAnualizado :=
        some (beneficioTotal / capitalInicial * 100 * (252 / (totalOperaciones : ℚ))) }

/-- The fill price of a market order as the specification states it: the
requested price plus half the spread for a buy, minus half the spread for
a sell. -/
def precioEjecucionDe (tipo : TipoOperacion) (precio spread : ℚ) : ℚ :=
  match tipo with
  | .compra => precio + spread / 2
  | .venta => precio - spread / 2

/-- The close price of a position as the specification states it: the
current price minus half the spread for a buy, plus half the spread for a
sell (the opposite half-spread adjustment from the open). -/
def precioCierreDe (p : Posicion) (spread : ℚ) : ℚ :=
  match p.tipo with
  | .compra => p.precioActual - spread / 2
  | .venta => p.precioActual + spread / 2

/-- The net realized profit of a closed position as the specification
states it: `(close_price - open_price) * volume * 100000` for a buy, the
mirror for a sell, minus the recorded commission. -/
def beneficioNetoDe (p : Posicion) (spread : ℚ) : ℚ :=
  (match p.tipo with
   | .compra => (precioCierreDe p spread - p.precioApertura) * p.volumen * 100000
   | .venta => (p.precioApertura - precioCierreDe p spread) * p.volumen * 100000)
  - p.comision

/-- A broker fresh from the configuration of
`tests_backup/test_broker.py`: initial capital 10000, commission 2.5 per
lot, average spread 2 pips. -/
def brokerEjemplo10k : BrokerSimulado := brokerInicial 10000 (5/2) 2

/-- The market buy of the concrete specification scenario: 0.1 lot of
EURUSD requested at 1.10000. -/
def ordenEjemploCompra : Orden :=
  { simbolo := "EURUSD"
    tipo := .compra
    volumen := 1/10
    precio := some 1.10000
    stopLoss := some 1.09800
    takeProfit := some 1.10400 }

/-- The position of the concrete close scenario of the specification: the
0.1-lot buy filled at 1.10010 with commission 0.25, marked at current
price 1.10500. -/
def posEjemploCierre : Posicion :=
  { ticket := 1000
    simbolo := "EURUSD"
    tipo := .compra
    volumen := 1/10
    precioApertura := 1.10010
    precioActual := 1.10500
    stopLoss := some 1.09800
    takeProfit := some 1.10400
    comision := 1/4
    swap := 0
    beneficio := 0
    comentario := ""
    magic := 234000
    estado := .abierta }

/-- The broker holding `posEjemploCierre` after its placement: balance and
equity 9999.75, spread 0.0002. -/
def brokerEjemploCierre : BrokerSimulado :=
  { posiciones := [posEjemploCierre]
    ordenesPendientes := []
    historial := []
    balance := 9999.75
    equity := 9999.75
    comisionPorLote := 5/2
    spread := 0.0002 }

/-- An open sell position used to exercise the ignored partial-close
volume: 0.2 lots of GBPUSD sold at 1.30000, marked at 1.29000, commission
0.5. -/
def posEjemploParcial : Posicion :=
  { ticket := 2000
    simbolo := "GBPUSD"
    tipo := .venta
    volumen := 1/5
    precioApertura := 1.30000
    precioActual := 1.29000
    stopLoss := none
    takeProfit := none
    comision := 1/2
    swap := 0
    beneficio := 0
    comentario := ""
    magic := 234000
    estado := .abierta }

/-- A broker holding only `posEjemploParcial`. -/
def brokerEjemploParcial : BrokerSimulado :=
  { posiciones := [posEjemploParcial]
    ordenesPendientes := []
    historial := []
    balance := 9999.5
    equity := 9999.5
    comisionPorLote := 5/2
    spread := 0.0002 }

/-- A market buy used by the account-invariant scenarios: 0.1 lot of
EURUSD at 1.10000, no protective levels. -/
def ordenEjemploCuenta : Orden :=
  { simbolo := "EURUSD"
    tipo := .compra
    volumen := 1/10
    precio := some 1.10000 }

/-- Two venue operations that place and then fully close one market buy,
leaving the open set empty. -/
def opsEjemploCuenta : List OpVenue :=
  [.colocar ordenEjemploCuenta, .cerrar 1000 none]

/-- First market buy of the duplicate-ticket scenario. -/
def ordenEjemploTicketA : Orden :=
  { simbolo := "EURUSD", tipo := .compra, volumen := 1/10, precio := some 1.10000 }

/-- Second market buy of the duplicate-ticket scenario, placed while the
first is still open and the ledger still empty. -/
def ordenEjemploTicketB : Orden :=
  { simbolo := "EURUSD", tipo := .compra, volumen := 1/5, precio := some 1.10100 }

/-- A below-minimum order request: volume 0.001, under the minimum lot
0.01 checked by `Orden.__post_init__`. -/
def ordenEjemploMinima : Orden :=
  { simbolo := "EURUSD", tipo := .compra, volumen := 1/1000, precio := some 1.10000 }

/-- An open buy position whose stop loss and take profit are both set,
for the SL/TP tick check. -/
def posEjemploSlTp : Posicion :=
  { ticket := 1000
    simbolo := "EURUSD"
    tipo := .compra
    volumen := 1/10
    precioApertura := 1.10010
    precioActual := 1.10010
    stopLoss := some 1.09800
    takeProfit := some 1.10400
    comision := 1/4
    swap := 0
    beneficio := 0
    comentario := ""
    magic := 234000
    estado := .abierta }

/-- The broker holding `posEjemploSlTp`. -/
def brokerEjemploSlTp : BrokerSimulado :=
  { posiciones := [posEjemploSlTp]
    ordenesPendientes := []
    historial := []
    balance := 9999.75
    equity := 9999.75
    comisionPorLote := 5/2
    spread := 0.0002 }

/-- A tick of last price 1.09500, below the stop loss of
`posEjemploSlTp`. -/
def tickEjemploSl : Tick :=
  { timestamp := 0
    bid := 1.09490
    ask := 1.09510
    last := 1.09500
    volumen := 1
    spread := 0.0002 }

/-- A candle for the clamp scenario: open 1.1003, high 1.1006, low 1.1000,
close 1.1004. -/
def velaEjemploRango : Vela :=
  { timestamp := 0, apertura := 1.1003, alto := 1.1006, bajo := 1.1000, cierre := 1.1004 }

/-- The prepared row of `velaEjemploRango` alone: its range 0.0006 is its
own rolling volatility, giving 6 ticks. -/
def velaPrepEjemploRango : VelaPrep :=
  { timestamp := 0
    apertura := 1.1003
    alto := 1.1006
    bajo := 1.1000
    cierre := 1.1004
    rango := 0.0006
    volatilidad := 0.0006
    ticksPorVela := 6 }

/-- A tick simulator over the single candle `velaEjemploRango`, with a
small constant noise oracle. -/
def simEjemploRango : TickSimulator :=
  mkTickSimulator [velaEjemploRango] 0.0002 (fun _ _ => 1/100000) (fun _ _ => 3)

/-- A candle for the tick-count scenario: range 0.0005, hence 5 ticks. -/
def velaEjemploConteo : Vela :=
  { timestamp := 0, apertura := 1.2002, alto := 1.2005, bajo := 1.2000, cierre := 1.2003 }

/-- The prepared row of `velaEjemploConteo` alone. -/
def velaPrepEjemploConteo : VelaPrep :=
  { timestamp := 0
    apertura := 1.2002
    alto := 1.2005
    bajo := 1.2000
    cierre := 1.2003
    rango := 0.0005
    volatilidad := 0.0005
    ticksPorVela := 5 }

/-! ## Helper lemmas -/

/-- One venue operation preserves the invariant that an empty open set
forces `equity = balance`: `colocar_orden` and `cerrar_orden` set the
equity to the balance outright, `obtener_posiciones_abiertas` recomputes
`balance + 0` over an empty set (and raises before mutating otherwise),
and `obtener_estado_cuenta` mutates nothing. -/
theorem pasoVenue_preserva_equity (b : BrokerSimulado)
    (hb : b.posiciones = [] → b.equity = b.balance) (op : OpVenue) :
    (pasoVenue b op).posiciones = [] →
      (pasoVenue b op).equity = (pasoVenue b op).balance := by
  cases op with
  | colocar orden =>
    cases horden : orden.tipoOrden with
    | market =>
      intro h
      simp [pasoVenue, colocarOrden, horden] at h
    | limite =>
      intro h
      simp [pasoVenue, colocarOrden, horden] at h ⊢
      exact hb h
    | stop =>
      intro h
      simp [pasoVenue, colocarOrden, horden] at h ⊢
      exact hb h
  | cerrar t v =>
    cases hc : cerrarLista b.spread t b.posiciones with
    | none =>
      intro h
      simp [pasoVenue, cerrarOrden, hc] at h ⊢
      exact hb h
    | some x =>
      obtain ⟨p, pc, bn, rest⟩ := x
      intro _
      simp [pasoVenue, cerrarOrden, hc]
  | obtenerPosiciones =>
    cases hp : b.posiciones with
    | nil =>
      intro _
      simp [pasoVenue, obtenerPosicionesAbiertas, hp]
    | cons q resto =>
      intro h
      simp [pasoVenue, obtenerPosicionesAbiertas, hp] at h ⊢
  | obtenerEstado =>
    intro h
    simp [pasoVenue] at h ⊢
    exact hb h

/-- The invariant of `pasoVenue_preserva_equity` carries over any sequence
of venue operations. -/
theorem ejecutarOps_preserva_equity (ops : List OpVenue) (b : BrokerSimulado)
    (hb : b.posiciones = [] → b.equity = b.balance) :
    (ejecutarOps b ops).posiciones = [] →
      (ejecutarOps b ops).equity = (ejecutarOps b ops).balance := by
  induction ops generalizing b with
  | nil => simpa [ejecutarOps] using hb
  | cons op resto ih =>
    simpa [ejecutarOps] using
      ih (pasoVenue b op) (pasoVenue_preserva_equity b hb op)

/-- The first position of the open list carrying the sought ticket is the
one `cerrar_orden` closes: its close price and net profit are as the
specification states them, and the remaining positions keep their
order. -/
theorem cerrarLista_primera (spread : ℚ) (pre post : List Posicion) (p : Posicion)
    (hpre : ∀ q ∈ pre, q.ticket ≠ p.ticket) :
    cerrarLista spread p.ticket (pre ++ p :: post) =
      some (p, precioCierreDe p spread, beneficioNetoDe p spread, pre ++ post) := by
  induction pre with
  | nil =>
    cases htipo : p.tipo <;>
      simp [cerrarLista, precioCierreDe, beneficioNetoDe, htipo]
  | cons q resto ih =>
    have hq : q.ticket ≠ p.ticket := hpre q (by simp)
    simp [cerrarLista, hq, ih fun r hr => hpre r (by simp [hr])]

/-- The clamped tick count derived from any volatility lies in [5, 100]. -/
theorem ticksDeVolatilidad_acotado (q : ℚ) :
    5 ≤ ticksDeVolatilidad q ∧ ticksDeVolatilidad q ≤ 100 := by
  unfold ticksDeVolatilidad
  have h5 : (5 : ℤ) ≤ min 100 (max 5 (truncQ (q * 10000))) :=
    le_min (by norm_num) (le_max_left _ _)
  have h100 : min 100 (max 5 (truncQ (q * 10000))) ≤ 100 := min_le_left _ _
  omega

/-- Every row prepared by `_preparar_datos` carries a tick count in
[5, 100]. -/
theorem prepararDatos_ticks_acotado (velas : List Vela) :
    ∀ vp ∈ prepararDatos velas, 5 ≤ vp.ticksPorVela ∧ vp.ticksPorVela ≤ 100 := by
  intro vp hvp
  simp only [prepararDatos, List.mem_map] at hvp
  obtain ⟨⟨i, v⟩, _, rfl⟩ := hvp
  exact ticksDeVolatilidad_acotado _

/-- A candle in range generates exactly its prepared tick count of
ticks. -/
theorem generar_longitud (sim : TickSimulator) (velaIdx : ℕ) (vp : VelaPrep)
    (h : sim.datosVelas[velaIdx]? = some vp) :
    (generarTicksParaVela sim velaIdx).length = vp.ticksPorVela := by
  simp [generarTicksParaVela, h]

/-- Iterating `obtener_siguiente_tick` on a single-candle simulator: after
`k` calls with `1 ≤ k ≤ ticksPorVela`, the tick buffer holds the generated
ticks and the cursor sits at `k`. -/
theorem paso_iterado (S : TickSimulator) (vp : VelaPrep)
    (hdatos : S.datosVelas = [vp]) (hidx : S.indiceActual = 0)
    (hact : S.ticksActuales = []) (h5 : 0 < vp.ticksPorVela) :
    ∀ k, 1 ≤ k → k ≤ vp.ticksPorVela →
      ∃ g, pasoSimulador^[k] S =
        { S with
            ticksActuales := generarTicksParaVela S 0
            tickIdx := k
            ticksGenerados := g } := by
  have hget : S.datosVelas[0]? = some vp := by rw [hdatos]; rfl
  have hlen : (generarTicksParaVela S 0).length = vp.ticksPorVela :=
    generar_longitud S 0 vp hget
  intro k
  induction k with
  | zero => omega
  | succ j ih =>
    intro _ hkn
    rcases Nat.eq_zero_or_pos j with hj | hj
    · subst hj
      refine ⟨S.ticksGenerados ++ [(generarTicksParaVela S 0).get ⟨0, by omega⟩], ?_⟩
      rw [Function.iterate_one]
      rw [pasoSimulador, obtenerSiguienteTick]
      rw [dif_neg (by simp [hdatos, hidx])]
      simp only [hact, List.isEmpty_nil, if_true, hidx]
      rw [dif_pos (by omega)]
      simp [hact, hidx]
    · obtain ⟨g, hg⟩ := ih hj (by omega)
      have hne : (generarTicksParaVela S 0).isEmpty = false := by
        cases hgen : generarTicksParaVela S 0 with
        | nil => rw [hgen] at hlen; simp at hlen; omega
        | cons a resto => rfl
      refine ⟨g ++ [(generarTicksParaVela S 0).get ⟨j, by omega⟩], ?_⟩
      rw [Function.iterate_succ_apply', hg]
      rw [pasoSimulador, obtenerSiguienteTick]
      rw [dif_neg (by simp [hdatos, hidx])]
      simp only [hne, Bool.false_eq_true, if_false]
      rw [dif_pos (show j < (generarTicksParaVela S 0).length by omega)]
      simp [hne]

/-! ## Claim theorems -/

/-- C3: a market order carrying a requested price fills a buy at
`requested + spread/2` and a sell at `requested - spread/2`, deducts
`volume * commission_per_lot` from the balance immediately, opens exactly
one new position at the fill price with the assigned ticket, and returns
success with that ticket. -/
theorem colocar_orden_market_ejecuta (b : BrokerSimulado) (orden : Orden) (p : ℚ)
    (hvol : 1/100 ≤ orden.volumen)
    (hmercado : orden.tipoOrden = ClaseOrden.market)
    (hprecio : orden.precio = some p) (hp0 : p ≠ 0) :
    (colocarOrden b orden).1.exito = true ∧
    (colocarOrden b orden).1.ticket = some (b.historial.length + 1000) ∧
    (colocarOrden b orden).1.precio =
      some (precioEjecucionDe orden.tipo p b.spread) ∧
    (colocarOrden b orden).2.balance =
      b.balance - orden.volumen * b.comisionPorLote ∧
    ∃ pos : Posicion,
      (colocarOrden b orden).2.posiciones = b.posiciones ++ [pos] ∧
      pos.ticket = b.historial.length + 1000 ∧
      pos.volumen = orden.volumen ∧
      pos.precioApertura = precioEjecucionDe orden.tipo p b.spread := by
  cases htipo : orden.tipo <;>
    simp [colocarOrden, precioEjecucionDe, oPorDefecto, hmercado, hprecio, htipo, hp0]

/-- Witness for C3: the concrete scenario of the specification, a 0.1-lot
buy at 1.10000 with commission 2.5 per lot and spread 2 pips, fills at
1.10010 and leaves balance 9999.75 from 10000. -/
theorem colocar_orden_market_ejecuta_caso :
    ((1 : ℚ)/100 ≤ ordenEjemploCompra.volumen ∧
     ordenEjemploCompra.tipoOrden = ClaseOrden.market ∧
     ordenEjemploCompra.precio = some 1.10000 ∧ (1.10000 : ℚ) ≠ 0) ∧
    ((colocarOrden brokerEjemplo10k ordenEjemploCompra).1.exito = true ∧
     (colocarOrden brokerEjemplo10k ordenEjemploCompra).1.ticket =
       some (brokerEjemplo10k.historial.length + 1000) ∧
     (colocarOrden brokerEjemplo10k ordenEjemploCompra).1.precio =
       some (precioEjecucionDe ordenEjemploCompra.tipo 1.10000 brokerEjemplo10k.spread) ∧
     (colocarOrden brokerEjemplo10k ordenEjemploCompra).2.balance =
       brokerEjemplo10k.balance -
         ordenEjemploCompra.volumen * brokerEjemplo10k.comisionPorLote ∧
     ∃ pos : Posicion,
       (colocarOrden brokerEjemplo10k ordenEjemploCompra).2.posiciones =
         brokerEjemplo10k.posiciones ++ [pos] ∧
       pos.ticket = brokerEjemplo10k.historial.length + 1000 ∧
       pos.volumen = ordenEjemploCompra.volumen ∧
       pos.precioApertura =
         precioEjecucionDe ordenEjemploCompra.tipo 1.10000 brokerEjemplo10k.spread) ∧
    ((colocarOrden brokerEjemplo10k ordenEjemploCompra).1.precio = some 1.10010 ∧
     (colocarOrden brokerEjemplo10k ordenEjemploCompra).2.balance = 9999.75) :=
  ⟨⟨by decide, rfl, rfl, by decide⟩,
   colocar_orden_market_ejecuta brokerEjemplo10k ordenEjemploCompra 1.10000
     (by decide) rfl rfl (by decide),
   by decide⟩

/-- C4 (code bug): the ticket `len(historial) + 1000` is not unique among
simultaneously open positions: two market orders placed before any trade
is closed both receive ticket 1000, although the source comments the line
as generating a unique ticket. -/
theorem tickets_duplicados_en_posiciones :
    ((colocarOrden (colocarOrden (brokerInicial 10000 (5/2) 2) ordenEjemploTicketA).2
        ordenEjemploTicketB).2.posiciones.map Posicion.ticket) = [1000, 1000] ∧
    ¬ ((colocarOrden (colocarOrden (brokerInicial 10000 (5/2) 2) ordenEjemploTicketA).2
        ordenEjemploTicketB).2.posiciones.map Posicion.ticket).Nodup := by
  exact ⟨by decide, by decide⟩

/-- C8: an order whose volume is below the minimum lot 0.01 is rejected by
the `Orden` validation with a `ValueError`, so `colocar_orden` is never
reached: no position is created and the balance is unchanged; the volume
is never silently clamped. -/
theorem volumen_bajo_minimo_rechazado (b : BrokerSimulado) (o : Orden)
    (h : o.volumen < 1/100) :
    mkOrden o = Except.error "ValueError: volumen menor que minimo 0.01" ∧
    intentarColocarOrden b o = (b, none) := by
  have hm : mkOrden o = Except.error "ValueError: volumen menor que minimo 0.01" := by
    simp only [mkOrden, if_pos h]
  exact ⟨hm, by simp only [intentarColocarOrden, hm]⟩

/-- Witness for C8: the request with volume 0.001 of the specification
scenario is rejected and leaves the fresh broker untouched. -/
theorem volumen_bajo_minimo_rechazado_caso :
    (ordenEjemploMinima.volumen < 1/100) ∧
    (mkOrden ordenEjemploMinima =
       Except.error "ValueError: volumen menor que minimo 0.01" ∧
     intentarColocarOrden (brokerInicial 10000 (5/2) 2) ordenEjemploMinima =
       (brokerInicial 10000 (5/2) 2, none)) :=
  ⟨by decide,
   volumen_bajo_minimo_rechazado (brokerInicial 10000 (5/2) 2) ordenEjemploMinima
     (by decide)⟩

/-- C9: with an empty closed-trade ledger the metrics computation takes
the defaults branch, a total function of the inputs, and its defaults are
exactly the claimed zeros: no trades, zero win rate, zero total profit,
zero maximal drawdown, zero Sharpe ratio, zero expectancy. -/
theorem metricas_sin_operaciones (capitalInicial : ℚ) (equityCurve : List ℚ) :
    calcularMetricas capitalInicial [] equityCurve = metricasVacias ∧
    metricasVacias.totalOperaciones = 0 ∧
    metricasVacias.winRate = 0 ∧
    metricasVacias.beneficioTotal = 0 ∧
    metricasVacias.drawdownMaximo = 0 ∧
    metricasVacias.sharpe = 0 ∧
    metricasVacias.expectancy = 0 := by
  refine ⟨?_, rfl, rfl, rfl, rfl, rfl, rfl⟩
  simp [calcularMetricas]

/-- C5 (code bug): on a tick that reaches the stop loss of an open buy
position whose stop loss and take profit are both set, the engine's
per-tick update raises the `NameError` of the missing numpy import in
broker.py instead of evaluating the SL/TP rules, so no close is ever
triggered. -/
theorem actualizar_precios_lanza_excepcion :
    (tickEjemploSl.last ≤ 1.09800) ∧
    posEjemploSlTp.tipo = TipoOperacion.compra ∧
    posEjemploSlTp.stopLoss = some 1.09800 ∧
    posEjemploSlTp.takeProfit = some 1.10400 ∧
    brokerEjemploSlTp.posiciones = [posEjemploSlTp] ∧
    actualizarPreciosPosiciones brokerEjemploSlTp tickEjemploSl =
      Except.error "NameError: name np is not defined" :=
  ⟨by decide, rfl, rfl, rfl, rfl, rfl⟩

/-- C2 (counterexample): immediately after `colocar_orden` of a 0.1-lot
buy with commission 0.25, the venue sets `equity = balance` while the
mark-to-market net unrealized profit of the one open position is
`-0.25`, so `equity = balance + sum of unrealized profit` fails. -/
theorem equity_ignora_beneficio_no_realizado :
    ((colocarOrden (brokerInicial 10000 (5/2) 2) ordenEjemploCuenta).2.posiciones ≠ []) ∧
    (((colocarOrden (brokerInicial 10000 (5/2) 2) ordenEjemploCuenta).2.posiciones.map
        beneficioNoRealizado).sum = -(1/4)) ∧
    ¬ ((colocarOrden (brokerInicial 10000 (5/2) 2) ordenEjemploCuenta).2.equity =
        (colocarOrden (brokerInicial 10000 (5/2) 2) ordenEjemploCuenta).2.balance +
        ((colocarOrden (brokerInicial 10000 (5/2) 2) ordenEjemploCuenta).2.posiciones.map
            beneficioNoRealizado).sum) := by
  exact ⟨by decide, by decide, by decide⟩

/-- C2 (amended): over every sequence of venue operations from a fresh
simulated broker, `equity = balance` holds whenever the open-position set
is empty; the unrestricted equality `equity = balance + sum of unrealized
profit` fails after placements and closes that leave marked positions
open, as `equity_ignora_beneficio_no_realizado` shows. -/
theorem equity_igual_balance_sin_posiciones
    (capital comisionPorLote spreadPromedio : ℚ) (ops : List OpVenue)
    (hvacio : (ejecutarOps (brokerInicial capital comisionPorLote spreadPromedio)
        ops).posiciones = []) :
    (ejecutarOps (brokerInicial capital comisionPorLote spreadPromedio) ops).equity =
      (ejecutarOps (brokerInicial capital comisionPorLote spreadPromedio) ops).balance :=
  ejecutarOps_preserva_equity ops _ (fun _ => rfl) hvacio

/-- C1: closing an open position fills at the opposite half-spread
adjustment of the current price, realizes the net profit
`(close - open) * volume * 100000 - commission` for a buy (mirrored for a
sell) into the balance, appends the closed trade to the ledger and removes
the position from the open set. -/
theorem cerrar_orden_realiza_beneficio (b : BrokerSimulado)
    (pre post : List Posicion) (p : Posicion) (v : Option ℚ)
    (hpos : b.posiciones = pre ++ p :: post)
    (hpre : ∀ q ∈ pre, q.ticket ≠ p.ticket) :
    (cerrarOrden b p.ticket v).1.exito = true ∧
    (cerrarOrden b p.ticket v).1.precio = some (precioCierreDe p b.spread) ∧
    (cerrarOrden b p.ticket v).2.balance = b.balance + beneficioNetoDe p b.spread ∧
    (cerrarOrden b p.ticket v).2.historial = b.historial ++
      [⟨{ p with beneficio := beneficioNetoDe p b.spread,
                 estado := EstadoPosicion.cerrada },
        precioCierreDe p b.spread⟩] ∧
    (cerrarOrden b p.ticket v).2.posiciones = pre ++ post := by
  have h := cerrarLista_primera b.spread pre post p hpre
  simp [cerrarOrden, hpos, h]

/-- Witness for C1: the concrete close scenario of the specification: the
0.1-lot buy opened at 1.10010 with commission 0.25 closes at current price
1.10500 with close price 1.10490, net profit 47.75 and balance 10047.50
from 9999.75. -/
theorem cerrar_orden_realiza_beneficio_caso :
    (brokerEjemploCierre.posiciones = [] ++ posEjemploCierre :: [] ∧
     (∀ q ∈ ([] : List Posicion), q.ticket ≠ posEjemploCierre.ticket)) ∧
    ((cerrarOrden brokerEjemploCierre posEjemploCierre.ticket none).1.exito = true ∧
     (cerrarOrden brokerEjemploCierre posEjemploCierre.ticket none).1.precio =
       some (precioCierreDe posEjemploCierre brokerEjemploCierre.spread) ∧
     (cerrarOrden brokerEjemploCierre posEjemploCierre.ticket none).2.balance =
       brokerEjemploCierre.balance +
         beneficioNetoDe posEjemploCierre brokerEjemploCierre.spread ∧
     (cerrarOrden brokerEjemploCierre posEjemploCierre.ticket none).2.historial =
       brokerEjemploCierre.historial ++
         [⟨{ posEjemploCierre with
              beneficio := beneficioNetoDe posEjemploCierre brokerEjemploCierre.spread,
              estado := EstadoPosicion.cerrada },
           precioCierreDe posEjemploCierre brokerEjemploCierre.spread⟩] ∧
     (cerrarOrden brokerEjemploCierre posEjemploCierre.ticket none).2.posiciones =
       [] ++ []) ∧
    ((cerrarOrden brokerEjemploCierre posEjemploCierre.ticket none).1.precio =
       some 1.10490 ∧
     beneficioNetoDe posEjemploCierre brokerEjemploCierre.spread = 47.75 ∧
     (cerrarOrden brokerEjemploCierre posEjemploCierre.ticket none).2.balance =
       10047.50) :=
  ⟨⟨rfl, by simp⟩,
   cerrar_orden_realiza_beneficio brokerEjemploCierre [] [] posEjemploCierre none
     rfl (by simp),
   by decide⟩

/-- C10: the optional volume argument of `cerrar_orden` is ignored: for
every value, including a partial volume below the position volume, the
whole position is closed and removed, the realized profit covers the full
volume, and the returned fill volume is the full position volume. -/
theorem cerrar_orden_ignora_volumen (b : BrokerSimulado)
    (pre post : List Posicion) (p : Posicion) (w : ℚ)
    (hpos : b.posiciones = pre ++ p :: post)
    (hpre : ∀ q ∈ pre, q.ticket ≠ p.ticket) :
    cerrarOrden b p.ticket (some w) = cerrarOrden b p.ticket none ∧
    (cerrarOrden b p.ticket (some w)).1.volumen = some p.volumen ∧
    (cerrarOrden b p.ticket (some w)).2.balance =
      b.balance + beneficioNetoDe p b.spread ∧
    (cerrarOrden b p.ticket (some w)).2.posiciones = pre ++ post := by
  have h := cerrarLista_primera b.spread pre post p hpre
  refine ⟨rfl, ?_, ?_, ?_⟩ <;> simp [cerrarOrden, hpos, h]

/-- Witness for C10: asking to close 0.05 lots of the open 0.2-lot sell
closes all 0.2 lots, removes the position, and realizes the full-volume
net profit 197.5 into the balance. -/
theorem cerrar_orden_ignora_volumen_caso :
    (brokerEjemploParcial.posiciones = [] ++ posEjemploParcial :: [] ∧
     (1 : ℚ)/20 < posEjemploParcial.volumen) ∧
    (cerrarOrden brokerEjemploParcial posEjemploParcial.ticket (some (1/20)) =
       cerrarOrden brokerEjemploParcial posEjemploParcial.ticket none ∧
     (cerrarOrden brokerEjemploParcial posEjemploParcial.ticket
         (some (1/20))).1.volumen = some posEjemploParcial.volumen ∧
     (cerrarOrden brokerEjemploParcial posEjemploParcial.ticket
         (some (1/20))).2.balance =
       brokerEjemploParcial.balance +
         beneficioNetoDe posEjemploParcial brokerEjemploParcial.spread ∧
     (cerrarOrden brokerEjemploParcial posEjemploParcial.ticket
         (some (1/20))).2.posiciones = [] ++ []) ∧
    ((cerrarOrden brokerEjemploParcial posEjemploParcial.ticket
         (some (1/20))).1.volumen = some (1/5) ∧
     (cerrarOrden brokerEjemploParcial posEjemploParcial.ticket
         (some (1/20))).2.balance = 10197 ∧
     (cerrarOrden brokerEjemploParcial posEjemploParcial.ticket
         (some (1/20))).2.posiciones = []) :=
  ⟨⟨rfl, by decide⟩,
   cerrar_orden_ignora_volumen brokerEjemploParcial [] [] posEjemploParcial (1/20)
     rfl (by simp),
   by decide⟩

/-- C6: every tick generated for a candle whose low does not exceed its
high has its bid clamped into `[bajo, alto]` after the noise is added, and
its ask is exactly `bid + spread`. -/
theorem ticks_acotados_por_vela (sim : TickSimulator) (velaIdx : ℕ)
    (vela : VelaPrep)
    (hvela : sim.datosVelas[velaIdx]? = some vela)
    (hrango : vela.bajo ≤ vela.alto) :
    ∀ t ∈ generarTicksParaVela sim velaIdx,
      vela.bajo ≤ t.bid ∧ t.bid ≤ vela.alto ∧ t.ask = t.bid + sim.spread := by
  intro t ht
  simp only [generarTicksParaVela, hvela, List.mem_map, List.mem_range] at ht
  obtain ⟨i, _, rfl⟩ := ht
  exact ⟨le_min hrango (le_max_right _ _), min_le_left _ _, rfl⟩

/-- Witness for C6: the six ticks of the single candle with low 1.1000 and
high 1.1006 all stay within the candle range with ask one spread above
bid. -/
theorem ticks_acotados_por_vela_caso :
    (simEjemploRango.datosVelas[0]? = some velaPrepEjemploRango ∧
     velaPrepEjemploRango.bajo ≤ velaPrepEjemploRango.alto) ∧
    (∀ t ∈ generarTicksParaVela simEjemploRango 0,
      velaPrepEjemploRango.bajo ≤ t.bid ∧ t.bid ≤ velaPrepEjemploRango.alto ∧
      t.ask = t.bid + simEjemploRango.spread) :=
  ⟨⟨by decide, by decide⟩,
   ticks_acotados_por_vela simEjemploRango 0 velaPrepEjemploRango
     (by decide) (by decide)⟩

/-- C7: every prepared candle receives between 5 and 100 ticks; an empty
candle set is exhausted at the very first `obtener_siguiente_tick` call;
and a single-candle set answers its full tick count of calls and then
reports exhaustion. -/
theorem conteo_y_agotamiento_ticks (velas : List Vela) (spread : ℚ)
    (ruido : ℕ → ℕ → ℚ) (volumenAleatorio : ℕ → ℕ → ℕ) :
    (∀ vp ∈ prepararDatos velas, 5 ≤ vp.ticksPorVela ∧ vp.ticksPorVela ≤ 100) ∧
    (∀ i vp,
      (mkTickSimulator velas spread ruido volumenAleatorio).datosVelas[i]? =
        some vp →
      (generarTicksParaVela (mkTickSimulator velas spread ruido volumenAleatorio)
        i).length = vp.ticksPorVela) ∧
    (velas = [] →
      (obtenerSiguienteTick
        (mkTickSimulator velas spread ruido volumenAleatorio)).1 = none) ∧
    (∀ v vp, velas = [v] → prepararDatos velas = [vp] →
      (∀ k, k < vp.ticksPorVela →
        (llamadaSimulador (mkTickSimulator velas spread ruido volumenAleatorio)
          k).isSome = true) ∧
      llamadaSimulador (mkTickSimulator velas spread ruido volumenAleatorio)
        vp.ticksPorVela = none) := by
  refine ⟨prepararDatos_ticks_acotado velas,
    fun i vp h => generar_longitud _ i vp h, ?_, ?_⟩
  · intro hnil
    subst hnil
    rw [obtenerSiguienteTick]
    rw [dif_pos (by simp [mkTickSimulator, prepararDatos])]
  · intro v vp hv hvp
    subst hv
    set S := mkTickSimulator [v] spread ruido volumenAleatorio with hS
    have hdatos : S.datosVelas = [vp] := hvp
    have hidx : S.indiceActual = 0 := rfl
    have hact : S.ticksActuales = [] := rfl
    have hcota : 5 ≤ vp.ticksPorVela ∧ vp.ticksPorVela ≤ 100 :=
      prepararDatos_ticks_acotado [v] vp (by rw [hvp]; exact List.mem_singleton.mpr rfl)
    have h5 : 0 < vp.ticksPorVela := by omega
    have hget : S.datosVelas[0]? = some vp := by rw [hdatos]; rfl
    have hlen : (generarTicksParaVela S 0).length = vp.ticksPorVela :=
      generar_longitud S 0 vp hget
    have hne : (generarTicksParaVela S 0).isEmpty = false := by
      cases hgen : generarTicksParaVela S 0 with
      | nil => rw [hgen] at hlen; simp at hlen; omega
      | cons a resto => rfl
    constructor
    · intro k hk
      rcases Nat.eq_zero_or_pos k with hk0 | hk1
      · subst hk0
        rw [llamadaSimulador, Function.iterate_zero_apply]
        rw [obtenerSiguienteTick]
        rw [dif_neg (by simp [hdatos, hidx])]
        simp only [hact, List.isEmpty_nil, if_true, hidx]
        rw [dif_pos (by omega)]
        rfl
      · obtain ⟨g, hg⟩ := paso_iterado S vp hdatos hidx hact h5 k hk1 (by omega)
        rw [llamadaSimulador, hg]
        rw [obtenerSiguienteTick]
        rw [dif_neg (by simp [hdatos, hidx])]
        simp only [hne, Bool.false_eq_true, if_false]
        rw [dif_pos (show k < (generarTicksParaVela S 0).length by omega)]
        rfl
    · obtain ⟨g, hg⟩ :=
        paso_iterado S vp hdatos hidx hact h5 vp.ticksPorVela h5 le_rfl
      rw [llamadaSimulador, hg]
      rw [obtenerSiguienteTick]
      rw [dif_neg (by simp [hdatos, hidx])]
      simp only [hne, Bool.false_eq_true, if_false]
      rw [dif_neg (show ¬vp.ticksPorVela < (generarTicksParaVela S 0).length
        by omega)]
      rw [obtenerSiguienteTick]
      rw [dif_pos (by simp [hdatos, hidx])]

/-- Witness for C7: the single candle of range 0.0005 is prepared with 5
ticks, and the sixth call of `obtener_siguiente_tick` reports
exhaustion. -/
theorem conteo_y_agotamiento_ticks_caso :
    (prepararDatos [velaEjemploConteo] = [velaPrepEjemploConteo]) ∧
    ((∀ k, k < velaPrepEjemploConteo.ticksPorVela →
       (llamadaSimulador
         (mkTickSimulator [velaEjemploConteo] (1/5000)
           (fun _ _ => 0) (fun _ _ => 1)) k).isSome = true) ∧
     llamadaSimulador
       (mkTickSimulator [velaEjemploConteo] (1/5000)
         (fun _ _ => 0) (fun _ _ => 1))
       velaPrepEjemploConteo.ticksPorVela = none) :=
  ⟨by decide,
   (conteo_y_agotamiento_ticks [velaEjemploConteo] (1/5000)
       (fun _ _ => 0) (fun _ _ => 1)).2.2.2
     velaEjemploConteo velaPrepEjemploConteo rfl (by decide)⟩

/-- Witness for C2: placing and fully closing one market buy leaves no
open position, and the final equity equals the final balance 9998.5. -/
theorem equity_igual_balance_sin_posiciones_caso :
    ((ejecutarOps (brokerInicial 10000 (5/2) 2) opsEjemploCuenta).posiciones = []) ∧
    (ejecutarOps (brokerInicial 10000 (5/2) 2) opsEjemploCuenta).equity =
      (ejecutarOps (brokerInicial 10000 (5/2) 2) opsEjemploCuenta).balance ∧
    (ejecutarOps (brokerInicial 10000 (5/2) 2) opsEjemploCuenta).balance = 9998.5 :=
  ⟨by decide,
   equity_igual_balance_sin_posiciones 10000 (5/2) 2 opsEjemploCuenta (by decide),
   by decide⟩

end Botd
